import Mathlib

/-!
Shallow embedding of `src/bindings/util/estimator_kalman_emulator.py`
(class `EstimatorKalmanEmulator`), the estimator orchestration loop of the
repository.

Modelling conventions:
* Python floats are modelled as exact rationals (`ℚ`); every float literal in
  the source (`0.30`, `0.001`, `0.01`, `1000 / 100`, `0.015/2.0`, ...) is
  exactly representable, and the only float arithmetic the embedded code
  performs on them (copying, adding `10.0`, comparing with an integer) is
  exact, so `ℚ` reproduces the float semantics on the values that actually
  occur.
* Timestamps and `now_ms` are `int` in the source and are modelled as `Nat`
  (the source only ever seeds them from sample timestamps and increments).
* Calls into the opaque `cffirmware` kalman core (predict, addProcessNoise,
  updateWith*, subsampler accumulate/finalize, finalize, externalize) are
  modelled as an emitted event trace: the loop's observable behaviour is the
  sequence of core calls together with the records passed to them.
* The dead local reads of `get_state` / `get_mat_index` at the top of
  `_update_with_sample` (their results are only used by commented-out print
  statements) are not modelled; they are side-effect-free accessor calls.
* Python lookup failures (`KeyError`/`IndexError`, both subclasses of
  `LookupError`) are modelled by `Except` with error `LookupError.lookup`;
  the calibration tables handed to `__init__` are modelled as total functions
  into `Option`.
-/

/-- A 3-vector of (exact-rational-modelled) floats, mirroring
`cffirmware.vec3_s` / `Axis3f`. -/
structure Vec3 where
  x : ℚ
  y : ℚ
  z : ℚ
deriving DecidableEq

/-- A 3×3 matrix in the element-by-element representation of
`cffirmware.mat3_s` (fields `i11` .. `i33`). -/
structure Mat3 where
  i11 : ℚ
  i12 : ℚ
  i13 : ℚ
  i21 : ℚ
  i22 : ℚ
  i23 : ℚ
  i31 : ℚ
  i32 : ℚ
  i33 : ℚ
deriving DecidableEq

/-- Mathematical transpose of a 3×3 matrix: off-diagonal pairs swapped,
diagonal unchanged.  Stated from the spec's words; used to compare against
the matrix the sweep-angle branch builds field by field. -/
def Mat3.transpose (m : Mat3) : Mat3 :=
  ⟨m.i11, m.i21, m.i31, m.i12, m.i22, m.i32, m.i13, m.i23, m.i33⟩

/-- A basestation pose: `{'origin': vec3, 'mat': mat3}` as read from
`self.basestation_poses[...]`. -/
structure Pose where
  origin : Vec3
  mat : Mat3
deriving DecidableEq

/-- A raw sensor sample.  In the source a sample is the pair
`(tag_string, fields_dict)`; here the dictionary is flattened into one
record carrying every field any dispatch branch ever reads (a branch only
reads the fields of its own kind, so the extra fields are inert). -/
structure Sample where
  tag : String
  timestamp : Nat
  idA : Nat
  idB : Nat
  distanceDiff : ℚ
  yawError : ℚ
  sensorId : Nat
  baseStationId : Nat
  sweepId : Nat
  t : ℚ
  sweepAngle : ℚ
  accX : ℚ
  accY : ℚ
  accZ : ℚ
  gyroX : ℚ
  gyroY : ℚ
  gyroZ : ℚ
deriving DecidableEq

/-- A sample with the given tag and timestamp and all other fields zero;
used to build concrete samples. -/
def blankSample (tag : String) (ts : Nat) : Sample :=
  ⟨tag, ts, 0, 0, 0, 0, 0, 0, 0, 0, 0, 0, 0, 0, 0, 0, 0⟩

/-- The calibration/geometry context handed to `__init__`:
`anchor_positions`, `basestation_poses` and the two-level
`basestation_calibration[baseStationId][sweepId]` table.  The calibration
model descriptor itself is opaque to the loop (it is passed verbatim to
`set_calibration_model`), so it is modelled by an opaque `Nat` token. -/
structure CalibContext where
  anchor_positions : Nat → Option Vec3
  basestation_poses : Nat → Option Pose
  basestation_calibration : Nat → Nat → Option Nat

/-- Source constant `self.TDOA_ENGINE_MEASUREMENT_NOISE_STD = 0.30`. -/
def TDOA_ENGINE_MEASUREMENT_NOISE_STD : ℚ := 0.30

/-- Source constant `self.LH_ENGINE_MEASUREMENT_NOISE_STD = 0.001`. -/
def LH_ENGINE_MEASUREMENT_NOISE_STD : ℚ := 0.001

/-- Source constant `self.PREDICT_RATE = 100`. -/
def PREDICT_RATE : Nat := 100

/-- Source constant `self.PREDICT_STEP_MS = 1000 / self.PREDICT_RATE` (true float division
in Python 3, hence the rational value 10). -/
def PREDICT_STEP_MS : ℚ := 1000 / (PREDICT_RATE : ℚ)

/-- The `tdoaMeasurement_t` record filled in by the `estTDOA` branch. -/
structure TdoaRecord where
  anchorIdA : Nat
  anchorIdB : Nat
  anchorPositionA : Vec3
  anchorPositionB : Vec3
  distanceDiff : ℚ
  stdDev : ℚ
deriving DecidableEq

/-- The `yawErrorMeasurement_t` record filled in by the `estYawError`
branch. -/
structure YawErrorRecord where
  yawError : ℚ
  stdDev : ℚ
deriving DecidableEq

/-- The `sweepAngleMeasurement_t` record filled in by the `estSweepAngle`
branch. -/
structure SweepRecord where
  sensorId : Nat
  baseStationId : Nat
  sweepId : Nat
  t : ℚ
  measuredSweepAngle : ℚ
  stdDev : ℚ
  calibrationModel : Nat
  sensorPos : Vec3
  rotorPos : Vec3
  rotorRot : Mat3
  rotorRotInv : Mat3
deriving DecidableEq

/-- One call into the opaque `cffirmware` filter core / subsamplers.  The
loop's observable behaviour is the trace of these events. -/
inductive FilterEvent where
  | subSamplerFinalizeAcc : FilterEvent
  | subSamplerFinalizeGyro : FilterEvent
  | predict (timeMs : Nat) (quadIsFlying : Bool) : FilterEvent
  | addProcessNoise (timeMs : Nat) : FilterEvent
  | updateWithTdoa (rec : TdoaRecord) (timeMs : Nat) : FilterEvent
  | updateWithYawError (rec : YawErrorRecord) : FilterEvent
  | updateWithSweepAngles (rec : SweepRecord) (timeMs : Nat) : FilterEvent
  | accumulateAcc (v : Vec3) : FilterEvent
  | accumulateGyro (v : Vec3) : FilterEvent
  | finalizeCore : FilterEvent
  | externalize : FilterEvent
deriving DecidableEq

/-- A Python `LookupError` (`KeyError` / `IndexError`) raised by a failed
calibration-table lookup. -/
inductive LookupError where
  | lookup : LookupError
deriving DecidableEq

/-- The fixed table of 4 sensor positions on the rigid body built inside the
`estSweepAngle` branch (`sensor_position[0..3]`, with
`sensor_pos_w = 0.015/2.0` and `sensor_pos_l = 0.030/2.0`); indexing it with
any other id raises a `KeyError` in the source, hence `Option` here. -/
def sensor_position (i : Nat) : Option Vec3 :=
  if i = 0 then some ⟨-(0.015/2.0), 0.030/2.0, 0.0⟩
  else if i = 1 then some ⟨-(0.015/2.0), -(0.030/2.0), 0.0⟩
  else if i = 2 then some ⟨0.015/2.0, 0.030/2.0, 0.0⟩
  else if i = 3 then some ⟨0.015/2.0, -(0.030/2.0), 0.0⟩
  else none

/-- Source method `_update_with_sample(self, sample, now_ms)`: dispatch one sample on its
tag string, building the filter-ready measurement record and returning the
resulting core calls, or a `LookupError` when a referenced identifier is
absent from the calibration tables.  The source uses five separate `if`
blocks on `sample[0]`; a single string equals at most one of the five
distinct literals, so the sequential `if`s are rendered as an `if`/`else`
chain with the same semantics. -/
def _update_with_sample (ctx : CalibContext) (sample : Sample) (now_ms : Nat) :
    Except LookupError (List FilterEvent) :=
  if sample.tag = "estTDOA" then
    match ctx.anchor_positions sample.idA, ctx.anchor_positions sample.idB with
    | some posA, some posB =>
        .ok [.updateWithTdoa
              ⟨sample.idA, sample.idB, posA, posB, sample.distanceDiff,
               TDOA_ENGINE_MEASUREMENT_NOISE_STD⟩ now_ms]
    | _, _ => .error .lookup
  else if sample.tag = "estYawError" then
    .ok [.updateWithYawError ⟨sample.yawError, 0.01⟩]
  else if sample.tag = "estSweepAngle" then
    -- lookups happen in source order: calibration table, sensor-position
    -- table, then the basestation pose (origin and rotation matrix)
    match ctx.basestation_calibration sample.baseStationId sample.sweepId with
    | none => .error .lookup
    | some calib =>
      match sensor_position sample.sensorId with
      | none => .error .lookup
      | some sPos =>
        match ctx.basestation_poses sample.baseStationId with
        | none => .error .lookup
        | some pose =>
          .ok [.updateWithSweepAngles
                { sensorId := sample.sensorId
                  baseStationId := sample.baseStationId
                  sweepId := sample.sweepId
                  t := sample.t
                  measuredSweepAngle := sample.sweepAngle
                  stdDev := LH_ENGINE_MEASUREMENT_NOISE_STD
                  calibrationModel := calib
                  sensorPos := sPos
                  rotorPos := pose.origin
                  rotorRot :=
                    ⟨pose.mat.i11, pose.mat.i12, pose.mat.i13,
                     pose.mat.i21, pose.mat.i22, pose.mat.i23,
                     pose.mat.i31, pose.mat.i32, pose.mat.i33⟩
                  -- transpose of the rotation matrix (source lines 188-197)
                  rotorRotInv :=
                    ⟨pose.mat.i11, pose.mat.i21, pose.mat.i31,
                     pose.mat.i12, pose.mat.i22, pose.mat.i32,
                     pose.mat.i13, pose.mat.i23, pose.mat.i33⟩ } now_ms]
  else if sample.tag = "estAcceleration" then
    .ok [.accumulateAcc ⟨sample.accX, sample.accY, sample.accZ⟩]
  else if sample.tag = "estGyroscope" then
    .ok [.accumulateGyro ⟨sample.gyroX, sample.gyroY, sample.gyroZ⟩]
  else
    .ok []

/-- Result of draining the queue: the events emitted, the samples still in
the queue afterwards, and the `LookupError` (if any) that aborted the
drain. -/
structure DrainResult where
  events : List FilterEvent
  remaining : List Sample
  err : Option LookupError
deriving DecidableEq

/-- Source method `_update_queued_measurements(self, now_ms, sensor_samples)`: repeatedly
`pop(0)` the head sample; if its timestamp is `≤ now_ms` dispatch it and
continue, otherwise `return`.  Note the pop happens before the timestamp
test, so the first future-timestamped sample is removed from the queue and
discarded by the early `return`.  A `LookupError` raised by
`_update_with_sample` aborts the drain with the already-popped samples
gone. -/
def _update_queued_measurements (ctx : CalibContext) (now_ms : Nat) :
    List Sample → DrainResult
  | [] => ⟨[], [], none⟩
  | sample :: rest =>
    if sample.timestamp ≤ now_ms then
      match _update_with_sample ctx sample now_ms with
      | .error e => ⟨[], rest, some e⟩
      | .ok evs =>
        let r := _update_queued_measurements ctx now_ms rest
        ⟨evs ++ r.events, r.remaining, r.err⟩
    else
      ⟨[], rest, none⟩

/-- The loop state owned by `EstimatorKalmanEmulator`: `self.now_ms`,
`self.next_prediction_ms` (a float, set to `now + PREDICT_STEP_MS`) and
`self._is_initialized`. -/
structure EstimatorState where
  now_ms : Nat
  next_prediction_ms : ℚ
  is_initialized : Bool
deriving DecidableEq

/-- Source method `_lazy_init(self, sample_time_ms)`: seed `now_ms` and
`next_prediction_ms = now_ms + PREDICT_STEP_MS` and set the initialized
flag.  The subsampler/outlier-filter/core initialization calls it also makes
are opaque one-time external calls and are not part of the per-tick event
trace. -/
def _lazy_init (sample_time_ms : Nat) : EstimatorState :=
  ⟨sample_time_ms, (sample_time_ms : ℚ) + PREDICT_STEP_MS, true⟩

/-- An exception escaping `run_one_1khz_iteration`: the `IndexError` from
`sensor_samples[0]` on an uninitialized emulator with an empty batch, or a
`LookupError` propagating out of the drain. -/
inductive TickError where
  | indexErr : TickError
  | lookupErr : TickError
deriving DecidableEq

/-- The value and observable effects of one successful
`run_one_1khz_iteration` call: the returned timestamp, the updated loop
state, the queue left behind, and the trace of core calls. -/
structure TickResult where
  returned_ms : Nat
  state : EstimatorState
  remaining : List Sample
  events : List FilterEvent
deriving DecidableEq

/-- Source method `run_one_1khz_iteration(self, sensor_samples)`: lazily initialize from
the first sample's timestamp, run the prediction branch when
`now_ms > next_prediction_ms` (strict, float comparison), add process noise,
drain the queue, finalize, advance `now_ms` by 1, externalize, and return
`(now_ms, external_state)`.  On a raised exception the Python object's
partially-mutated state is abandoned here: the claims below only concern
successful calls. -/
def run_one_1khz_iteration (ctx : CalibContext) (s : EstimatorState)
    (sensor_samples : List Sample) : Except TickError TickResult :=
  match
    (if s.is_initialized then .ok s
     else
       match sensor_samples with
       | [] => .error TickError.indexErr
       | first :: _ => .ok (_lazy_init first.timestamp) :
        Except TickError EstimatorState) with
  | .error e => .error e
  | .ok s0 =>
    let predictEvents : List FilterEvent :=
      if (s0.now_ms : ℚ) > s0.next_prediction_ms then
        [.subSamplerFinalizeAcc, .subSamplerFinalizeGyro,
         .predict s0.now_ms true]
      else []
    let next1 : ℚ :=
      if (s0.now_ms : ℚ) > s0.next_prediction_ms then
        s0.next_prediction_ms + PREDICT_STEP_MS
      else s0.next_prediction_ms
    let dr := _update_queued_measurements ctx s0.now_ms sensor_samples
    match dr.err with
    | some _ => .error TickError.lookupErr
    | none =>
      let events := predictEvents ++ [.addProcessNoise s0.now_ms] ++ dr.events
                      ++ [.finalizeCore, .externalize]
      .ok ⟨s0.now_ms + 1, ⟨s0.now_ms + 1, next1, true⟩, dr.remaining, events⟩

/-- Number of `predict` calls in an event trace. -/
def countPredicts : List FilterEvent → Nat
  | [] => 0
  | .predict _ _ :: rest => 1 + countPredicts rest
  | _ :: rest => countPredicts rest

/-- Iterate `run_one_1khz_iteration` with an empty sample batch `n` times
from an already-initialized state, returning the final state and the total
number of `predict` calls.  (On an initialized state with an empty batch the
tick cannot fail; the error branch is unreachable and returns a dummy.) -/
def tickN (ctx : CalibContext) (s : EstimatorState) : Nat → EstimatorState × Nat
  | 0 => (s, 0)
  | n + 1 =>
    match run_one_1khz_iteration ctx s [] with
    | .ok r =>
      let rest := tickN ctx r.state n
      (rest.1, countPredicts r.events + rest.2)
    | .error _ => (s, 0)

/-- Closed form for the loop state reached after `i` empty-batch ticks from
`_lazy_init t0`: simulated time `t0 + i`, next prediction boundary
`t0 + 10 * ((i - 2) / 10) + 10`. -/
def stateAfter (t0 i : Nat) : EstimatorState :=
  ⟨t0 + i, ((t0 + 10 * ((i - 2) / 10) + 10 : Nat) : ℚ), true⟩

/-- An empty calibration context (every lookup is absent). -/
def ctxEmpty : CalibContext := ⟨fun _ => none, fun _ => none, fun _ _ => none⟩

/-- A basestation pose with nine distinct matrix entries, for concrete
witnesses. -/
def poseEx : Pose := ⟨⟨4, 5, 6⟩, ⟨11, 12, 13, 21, 22, 23, 31, 32, 33⟩⟩

/-- A small populated calibration context for concrete witnesses: anchors
`0..5` present, basestation `1` present with pose `poseEx`, and calibration
entries for basestation `1`, sweeps `0` and `1`. -/
def ctxFull : CalibContext :=
  ⟨fun i => if i ≤ 5 then some ⟨9, 8, 7⟩ else none,
   fun i => if i = 1 then some poseEx else none,
   fun i j => if i = 1 ∧ j ≤ 1 then some 7 else none⟩

/-- The per-modality fixed noise standard deviation the spec prescribes for
each kind of measurement-update call: 0.30 for TDOA, 0.01 for yaw error,
0.001 for sweep angles; other events carry no noise constant. -/
def eventStdDevOk : FilterEvent → Prop
  | .updateWithTdoa rec _ => rec.stdDev = 0.30
  | .updateWithYawError rec => rec.stdDev = 0.01
  | .updateWithSweepAngles rec _ => rec.stdDev = 0.001
  | _ => True

/-- The TDOA sample used by concrete witnesses: anchors 1 and 2. -/
def tdoaSampleEx : Sample :=
  { blankSample ("estTDOA") 40 with idA := 1, idB := 2 }

/-- All identifiers a spatial sample references are present in the
calibration context: for TDOA both anchor ids; for sweep angles the
(basestation, sweep) calibration entry, the sensor id (in the fixed 4-entry
sensor-position table) and the basestation pose.  Non-spatial kinds
reference nothing. -/
def spatialIdsPresent (ctx : CalibContext) (sample : Sample) : Bool :=
  if sample.tag = "estTDOA" then
    (ctx.anchor_positions sample.idA).isSome
      && (ctx.anchor_positions sample.idB).isSome
  else if sample.tag = "estSweepAngle" then
    (ctx.basestation_calibration sample.baseStationId sample.sweepId).isSome
      && (sensor_position sample.sensorId).isSome
      && (ctx.basestation_poses sample.baseStationId).isSome
  else
    true

/-- The event trace an empty-batch tick on an initialized state produces:
maybe the prediction block, then process noise, then finalize and
externalize. -/
def emptyTickEvents (s : EstimatorState) : List FilterEvent :=
  (if (s.now_ms : ℚ) > s.next_prediction_ms then
     [.subSamplerFinalizeAcc, .subSamplerFinalizeGyro,
      .predict s.now_ms true]
   else [])
    ++ [.addProcessNoise s.now_ms] ++ [.finalizeCore, .externalize]

/-- The sweep-angle sample used by concrete witnesses: sensor 2 of
basestation 1, sweep 0. -/
def sweepSampleEx : Sample :=
  { blankSample ("estSweepAngle") 40 with
      sensorId := 2, baseStationId := 1, sweepId := 0 }

/-- The measurement record the dispatch of `sweepSampleEx` builds on
`ctxFull`. -/
def sweepRecEx : SweepRecord :=
  ⟨2, 1, 0, 0, 0, LH_ENGINE_MEASUREMENT_NOISE_STD, 7,
   ⟨0.015/2.0, 0.030/2.0, 0.0⟩, ⟨4, 5, 6⟩,
   ⟨11, 12, 13, 21, 22, 23, 31, 32, 33⟩,
   ⟨11, 21, 31, 12, 22, 32, 13, 23, 33⟩⟩

/-! ## Helper lemmas -/

/-- Characterization of a tick on an already-initialized state: the lazy-init
branch is skipped and the body runs on `s` itself. -/
theorem tick_initialized (ctx : CalibContext) (s : EstimatorState)
    (q : List Sample) (h : s.is_initialized = true) :
    run_one_1khz_iteration ctx s q =
      (match (_update_queued_measurements ctx s.now_ms q).err with
       | some _ => Except.error TickError.lookupErr
       | none =>
         Except.ok ⟨s.now_ms + 1,
           ⟨s.now_ms + 1,
            if (s.now_ms : ℚ) > s.next_prediction_ms then
              s.next_prediction_ms + PREDICT_STEP_MS
            else s.next_prediction_ms,
            true⟩,
           (_update_queued_measurements ctx s.now_ms q).remaining,
           (if (s.now_ms : ℚ) > s.next_prediction_ms then
              [.subSamplerFinalizeAcc, .subSamplerFinalizeGyro,
               .predict s.now_ms true]
            else [])
             ++ [.addProcessNoise s.now_ms]
             ++ (_update_queued_measurements ctx s.now_ms q).events
             ++ [.finalizeCore, .externalize]⟩) := by
  unfold run_one_1khz_iteration
  rw [h]
  simp

/-- A successful tick on an initialized state returns `now_ms + 1`, stores
`now_ms + 1` back, and stays initialized. -/
theorem tick_ok_parts (ctx : CalibContext) (s : EstimatorState)
    (q : List Sample) (r : TickResult)
    (hinit : s.is_initialized = true)
    (hok : run_one_1khz_iteration ctx s q = .ok r) :
    r.returned_ms = s.now_ms + 1 ∧ r.state.now_ms = s.now_ms + 1 ∧
      r.state.is_initialized = true := by
  rw [tick_initialized ctx s q hinit] at hok
  revert hok
  split
  · intro hok; cases hok
  · intro hok
    cases hok
    exact ⟨rfl, rfl, rfl⟩

/-- Additivity of `countPredicts` over concatenation. -/
theorem countPredicts_append (a b : List FilterEvent) :
    countPredicts (a ++ b) = countPredicts a + countPredicts b := by
  induction a with
  | nil => simp [countPredicts]
  | cons e rest ih =>
    cases e <;> simp [countPredicts, ih, Nat.add_assoc]

/-- The dispatch of a single sample never calls `predict`. -/
theorem dispatch_no_predict (ctx : CalibContext) (sample : Sample)
    (now_ms : Nat) (evs : List FilterEvent)
    (hok : _update_with_sample ctx sample now_ms = Except.ok evs) :
    countPredicts evs = 0 := by
  unfold _update_with_sample at hok
  split_ifs at hok <;> (repeat' split at hok) <;> cases hok <;> rfl

/-- The drain never calls `predict`. -/
theorem drain_no_predict (ctx : CalibContext) (now_ms : Nat) :
    ∀ q : List Sample,
      countPredicts (_update_queued_measurements ctx now_ms q).events = 0 := by
  intro q
  induction q with
  | nil => rfl
  | cons sample rest ih =>
    unfold _update_queued_measurements
    split
    · split
      · rfl
      · rename_i evs hok
        simp only [countPredicts_append, ih, Nat.add_zero]
        exact dispatch_no_predict ctx sample now_ms evs hok
    · rfl

/-- What remains after a drain is a suffix of the original queue. -/
theorem drain_remaining_suffix (ctx : CalibContext) (now_ms : Nat) :
    ∀ q : List Sample,
      ∃ dropped, dropped ++ (_update_queued_measurements ctx now_ms q).remaining = q := by
  intro q
  induction q with
  | nil => exact ⟨[], rfl⟩
  | cons sample rest ih =>
    unfold _update_queued_measurements
    split
    · split
      · exact ⟨[sample], rfl⟩
      · obtain ⟨d, hd⟩ := ih
        exact ⟨sample :: d, by simpa using hd⟩
    · exact ⟨[sample], rfl⟩

/-- On a timestamp-sorted queue, when the drain does not abort with a
lookup failure, every sample left in the queue has a timestamp strictly
beyond `now_ms`. -/
theorem drain_sorted_remaining_future (ctx : CalibContext) (now_ms : Nat) :
    ∀ q : List Sample,
      q.Pairwise (fun a b => a.timestamp ≤ b.timestamp) →
      (_update_queued_measurements ctx now_ms q).err = none →
      ∀ x ∈ (_update_queued_measurements ctx now_ms q).remaining,
        now_ms < x.timestamp := by
  intro q
  induction q with
  | nil => intro _ _ x hx; cases hx
  | cons sample rest ih =>
    intro hsorted herr
    rw [List.pairwise_cons] at hsorted
    revert herr
    unfold _update_queued_measurements
    split
    · split
      · intro herr; cases herr
      · intro herr
        exact ih hsorted.2 herr
    · rename_i hfuture
      intro _ x hx
      exact lt_of_lt_of_le (Nat.lt_of_not_le hfuture) (hsorted.1 x hx)

/-- A tick on an initialized state with an empty batch always succeeds and
does exactly: maybe predict, add process noise, finalize, advance time,
externalize. -/
theorem tick_empty_eq (ctx : CalibContext) (s : EstimatorState)
    (h : s.is_initialized = true) :
    run_one_1khz_iteration ctx s [] =
      Except.ok ⟨s.now_ms + 1,
        ⟨s.now_ms + 1,
         if (s.now_ms : ℚ) > s.next_prediction_ms then
           s.next_prediction_ms + PREDICT_STEP_MS
         else s.next_prediction_ms,
         true⟩,
        [],
        (if (s.now_ms : ℚ) > s.next_prediction_ms then
           [.subSamplerFinalizeAcc, .subSamplerFinalizeGyro,
            .predict s.now_ms true]
         else [])
          ++ [.addProcessNoise s.now_ms]
          ++ [.finalizeCore, .externalize]⟩ := by
  rw [tick_initialized ctx s [] h]
  simp [_update_queued_measurements]

/-- Number of `predict` calls made by an empty-batch tick: 1 when the
prediction branch fires, else 0. -/
theorem countPredicts_empty_tick (now : Nat) (c : Prop) [Decidable c] :
    countPredicts
      ((if c then
          [FilterEvent.subSamplerFinalizeAcc, FilterEvent.subSamplerFinalizeGyro,
           FilterEvent.predict now true]
        else [])
        ++ [FilterEvent.addProcessNoise now]
        ++ [FilterEvent.finalizeCore, FilterEvent.externalize])
      = if c then 1 else 0 := by
  by_cases hc : c <;> simp [hc, countPredicts_append, countPredicts]

theorem predict_step_eq_ten : PREDICT_STEP_MS = 10 := by
  norm_num [PREDICT_STEP_MS, PREDICT_RATE]

theorem lazy_init_eq_stateAfter (t0 : Nat) : _lazy_init t0 = stateAfter t0 0 := by
  unfold _lazy_init stateAfter
  rw [predict_step_eq_ten]
  simp only [EstimatorState.mk.injEq]
  refine ⟨by omega, ?_, trivial⟩
  push_cast
  ring

/-- Whether the prediction branch of an empty-batch tick fires from
`stateAfter t0 i`, phrased on naturals. -/
theorem stateAfter_cond (t0 i : Nat) :
    (((stateAfter t0 i).now_ms : ℚ) > (stateAfter t0 i).next_prediction_ms)
      ↔ t0 + 10 * ((i - 2) / 10) + 10 < t0 + i := by
  simp only [stateAfter]
  exact_mod_cast Iff.rfl

theorem stateAfter_step (t0 i : Nat) :
    (⟨(stateAfter t0 i).now_ms + 1,
      if ((stateAfter t0 i).now_ms : ℚ) > (stateAfter t0 i).next_prediction_ms then
        (stateAfter t0 i).next_prediction_ms + PREDICT_STEP_MS
      else (stateAfter t0 i).next_prediction_ms,
      true⟩ : EstimatorState) = stateAfter t0 (i + 1) := by
  by_cases hc : ((stateAfter t0 i).now_ms : ℚ) > (stateAfter t0 i).next_prediction_ms
  · rw [if_pos hc]
    have hn : t0 + 10 * ((i - 2) / 10) + 10 < t0 + i := (stateAfter_cond t0 i).mp hc
    have hd : (i + 1 - 2) / 10 = (i - 2) / 10 + 1 := by omega
    simp only [stateAfter, EstimatorState.mk.injEq]
    refine ⟨by omega, ?_, trivial⟩
    rw [hd, predict_step_eq_ten]
    push_cast
    ring
  · rw [if_neg hc]
    have hn : ¬ t0 + 10 * ((i - 2) / 10) + 10 < t0 + i := fun hlt =>
      hc ((stateAfter_cond t0 i).mpr hlt)
    have hd : (i + 1 - 2) / 10 = (i - 2) / 10 := by omega
    simp only [stateAfter, EstimatorState.mk.injEq]
    exact ⟨by omega, by rw [hd], trivial⟩

/-- Closed form for iterated empty-batch ticks: after `n` more ticks from
`stateAfter t0 i` the state is `stateAfter t0 (i + n)` and the number of
`predict` calls is `(i + n - 2) / 10 - (i - 2) / 10`. -/
theorem tickN_stateAfter (ctx : CalibContext) (t0 : Nat) :
    ∀ n i, tickN ctx (stateAfter t0 i) n
      = (stateAfter t0 (i + n), (i + n - 2) / 10 - (i - 2) / 10) := by
  intro n
  induction n with
  | zero =>
    intro i
    simp [tickN, stateAfter]
  | succ n ih =>
    intro i
    rw [tickN, tick_empty_eq ctx (stateAfter t0 i) rfl]
    simp only [countPredicts_empty_tick, stateAfter_step, ih (i + 1)]
    have hd1 : i + 1 + n = i + (n + 1) := by omega
    rw [hd1]
    simp only [Prod.mk.injEq, true_and]
    by_cases hc : (((stateAfter t0 i).now_ms : ℚ) > (stateAfter t0 i).next_prediction_ms)
    · rw [if_pos hc]
      rw [stateAfter_cond] at hc
      omega
    · rw [if_neg hc]
      rw [stateAfter_cond] at hc
      omega

/-- Iterated empty-batch ticks from a freshly initialized state: the final
simulated time is `t0 + N` and exactly `(N - 2) / 10` predictions run. -/
theorem tickN_from_init (ctx : CalibContext) (t0 N : Nat) :
    tickN ctx (_lazy_init t0) N = (stateAfter t0 N, (N - 2) / 10) := by
  rw [lazy_init_eq_stateAfter, tickN_stateAfter]
  norm_num

/-! ## Claims -/

/-- C1: the claim states that draining stops at the first sample whose
timestamp exceeds the simulated time and that this inspected sample is NOT
removed (it should stay at the head of the queue).  The code pops the
sample before the timestamp test and discards it on the early return: at
simulated time 100, a tick over the queue holding the single future sample
(timestamp 150) leaves an EMPTY queue while dispatching nothing — the
inspected sample is removed, contradicting the claim (and the method
docstring, which says only the samples used in the iteration are popped
from the list). -/
theorem c1_inspected_future_sample_is_removed :
    100 < (blankSample ("estYawError") 150).timestamp ∧
    (run_one_1khz_iteration ctxEmpty ⟨100, 110, true⟩
        [blankSample ("estYawError") 150]).toOption
      = some ⟨101, ⟨101, 110, true⟩, [],
          [.addProcessNoise 100, .finalizeCore, .externalize]⟩ :=
  ⟨by decide, by with_unfolding_all rfl⟩

/-- C2 counterexample: the claim demands that after `tick()` returns no
remaining element has a timestamp ≤ the UPDATED simulated time.  Ticking
the initialized state `now_ms = 100` over the timestamp-sorted queue
`[100, 101, 101]` returns updated time 101 yet leaves a sample with
timestamp 101 in the queue, and `101 ≤ 101`. -/
theorem c2_counterexample_boundary :
    (run_one_1khz_iteration ctxEmpty ⟨100, 110, true⟩
        [blankSample ("estYawError") 100, blankSample ("estYawError") 101,
         blankSample ("estYawError") 101]).toOption
      = some ⟨101, ⟨101, 110, true⟩, [blankSample ("estYawError") 101],
          [.addProcessNoise 100, .updateWithYawError ⟨0, 0.01⟩,
           .finalizeCore, .externalize]⟩ ∧
    (blankSample ("estYawError") 101).timestamp ≤ 101 :=
  ⟨by with_unfolding_all rfl, by decide⟩

/-- C2 (amended): for a successful tick on an initialized state whose queue
is sorted by timestamp, the remaining queue is a suffix of the original and
every remaining sample's timestamp strictly exceeds the simulated time at
call time (the pre-increment `now_ms`); hence every sample whose timestamp
was ≤ the call-time simulated time has been removed, exactly once each,
since removal only ever pops the head. -/
theorem c2_queue_drain_amended (ctx : CalibContext) (s : EstimatorState)
    (q : List Sample) (r : TickResult)
    (hinit : s.is_initialized = true)
    (hsorted : q.Pairwise (fun a b => a.timestamp ≤ b.timestamp))
    (hok : run_one_1khz_iteration ctx s q = .ok r) :
    (∀ x ∈ r.remaining, s.now_ms < x.timestamp) ∧
    (∃ dropped, dropped ++ r.remaining = q) := by
  rw [tick_initialized ctx s q hinit] at hok
  revert hok
  split
  · intro hok; cases hok
  · rename_i herr
    intro hok
    cases hok
    exact ⟨drain_sorted_remaining_future ctx s.now_ms q hsorted herr,
           drain_remaining_suffix ctx s.now_ms q⟩

theorem c2_queue_drain_amended_witness :
    (100 : Nat) < (blankSample ("estYawError") 300).timestamp :=
  (c2_queue_drain_amended ctxEmpty ⟨100, 110, true⟩
    [blankSample ("estYawError") 100, blankSample ("estYawError") 200,
     blankSample ("estYawError") 300]
    ⟨101, ⟨101, 110, true⟩, [blankSample ("estYawError") 300],
     [.addProcessNoise 100, .updateWithYawError ⟨0, 0.01⟩,
      .finalizeCore, .externalize]⟩
    rfl (by decide) (by with_unfolding_all rfl)).1
    (blankSample ("estYawError") 300) (List.mem_singleton_self _)

/-- C3: after initialization every successful tick returns `now_ms + 1`,
stores that value back as the new simulated time, and the next successful
tick returns exactly one more: the returned timestamps strictly increase by
exactly 1 per call. -/
theorem c3_monotonic_time (ctx : CalibContext) (s : EstimatorState)
    (q1 q2 : List Sample) (r1 r2 : TickResult)
    (hinit : s.is_initialized = true)
    (h1 : run_one_1khz_iteration ctx s q1 = .ok r1)
    (h2 : run_one_1khz_iteration ctx r1.state q2 = .ok r2) :
    r1.returned_ms = s.now_ms + 1 ∧ r1.state.now_ms = r1.returned_ms ∧
      r2.returned_ms = r1.returned_ms + 1 := by
  obtain ⟨ha, hb, hc⟩ := tick_ok_parts ctx s q1 r1 hinit h1
  obtain ⟨hd, _, _⟩ := tick_ok_parts ctx r1.state q2 r2 hc h2
  exact ⟨ha, by rw [ha, hb], by rw [hd, hb, ha]⟩

theorem c3_monotonic_time_witness :
    (101 : Nat) = 100 + 1 ∧ (101 : Nat) = 101 ∧ (102 : Nat) = 101 + 1 :=
  c3_monotonic_time ctxEmpty ⟨100, 110, true⟩ [] []
    ⟨101, ⟨101, 110, true⟩, [],
     [.addProcessNoise 100, .finalizeCore, .externalize]⟩
    ⟨102, ⟨102, 110, true⟩, [],
     [.addProcessNoise 101, .finalizeCore, .externalize]⟩
    rfl (by with_unfolding_all rfl) (by with_unfolding_all rfl)

/-- C4 counterexample: from initialization at `t0 = 0`, after `N = 10` ticks
the simulated time has advanced by 10, so the claimed count is
`floor((10 − 0) / 10) = 1`, but `predict` has been invoked 0 times (the
first prediction only happens on the 12th tick, at simulated time 11). -/
theorem c4_counterexample :
    (tickN ctxEmpty (_lazy_init 0) 10).1.now_ms - (_lazy_init 0).now_ms = 10 ∧
    (tickN ctxEmpty (_lazy_init 0) 10).2 = 0 ∧
    (10 : Nat) / 10 = 1 :=
  ⟨by with_unfolding_all rfl, by with_unfolding_all rfl, by decide⟩

/-- C4 (amended): across `N` empty-batch ticks starting from initialization
at time `t0`, the final simulated time is the initial one plus `N`, and the
number of `predict` invocations equals
`floor((simulatedTimeMs_final − initialSimulatedTimeMs − 2) / predictPeriodMs)`
(with truncated natural subtraction, so 0 for the first 11 ticks).  The
claimed formula without the `− 2` overcounts: the first boundary sits one
full period after `t0` and the strict `>` delays each prediction by one
further tick. -/
theorem c4_prediction_cadence_amended (ctx : CalibContext) (t0 N : Nat) :
    (tickN ctx (_lazy_init t0) N).1.now_ms = (_lazy_init t0).now_ms + N ∧
    (tickN ctx (_lazy_init t0) N).2
      = ((tickN ctx (_lazy_init t0) N).1.now_ms
          - (_lazy_init t0).now_ms - 2) / 10 := by
  rw [tickN_from_init]
  refine ⟨by simp [stateAfter, _lazy_init], ?_⟩
  simp only [stateAfter, _lazy_init]
  omega

/-- Re-running a tick after replacing an uninitialized state by the state
`_lazy_init` seeds from the head sample's timestamp changes nothing: the
lazy-init branch produces exactly that state. -/
theorem tick_uninitialized (ctx : CalibContext) (s : EstimatorState)
    (first : Sample) (rest : List Sample)
    (h : s.is_initialized = false) :
    run_one_1khz_iteration ctx s (first :: rest)
      = run_one_1khz_iteration ctx (_lazy_init first.timestamp) (first :: rest) := by
  unfold run_one_1khz_iteration
  rw [h]
  rfl

/-- A tick from an uninitialized state with an empty batch raises the
`IndexError` from `sensor_samples[0]`. -/
theorem tick_uninitialized_empty (ctx : CalibContext) (s : EstimatorState)
    (h : s.is_initialized = false) :
    run_one_1khz_iteration ctx s [] = .error .indexErr := by
  unfold run_one_1khz_iteration
  rw [h]
  rfl

/-- A successful tick whose prediction condition is false performs no
`predict` call. -/
theorem tick_no_predict_count (ctx : CalibContext) (s : EstimatorState)
    (q : List Sample) (r : TickResult)
    (hinit : s.is_initialized = true)
    (hok : run_one_1khz_iteration ctx s q = .ok r)
    (hcond : ¬ ((s.now_ms : ℚ) > s.next_prediction_ms)) :
    countPredicts r.events = 0 := by
  rw [tick_initialized ctx s q hinit] at hok
  revert hok
  split
  · intro hok; cases hok
  · intro hok
    cases hok
    simp only [if_neg hcond, List.nil_append, countPredicts_append,
      drain_no_predict]
    rfl

/-- C5: a successful tick from an uninitialized state (the tick that
performs initialization) never takes the prediction branch: right after
initialization from the first sample's timestamp, the simulated time equals
`nextPredictionTimeMs − PREDICT_STEP_MS`, so the strict `>` comparison
fails. -/
theorem c5_first_tick_never_predicts (ctx : CalibContext)
    (s : EstimatorState) (q : List Sample) (r : TickResult)
    (huninit : s.is_initialized = false)
    (hok : run_one_1khz_iteration ctx s q = .ok r) :
    countPredicts r.events = 0 ∧
    ∃ first rest, q = first :: rest ∧
      ((_lazy_init first.timestamp).now_ms : ℚ)
        = (_lazy_init first.timestamp).next_prediction_ms - PREDICT_STEP_MS := by
  cases q with
  | nil =>
    rw [tick_uninitialized_empty ctx s huninit] at hok
    cases hok
  | cons first rest =>
    rw [tick_uninitialized ctx s first rest huninit] at hok
    have hcond : ¬ (((_lazy_init first.timestamp).now_ms : ℚ)
        > (_lazy_init first.timestamp).next_prediction_ms) := by
      simp only [_lazy_init]
      rw [predict_step_eq_ten]
      intro hgt
      linarith
    refine ⟨tick_no_predict_count ctx _ _ r rfl hok hcond, first, rest, rfl, ?_⟩
    simp only [_lazy_init]
    ring

theorem c5_first_tick_never_predicts_witness :
    countPredicts [.addProcessNoise 5, .updateWithYawError ⟨0, 0.01⟩,
        .finalizeCore, .externalize] = 0 :=
  (c5_first_tick_never_predicts ctxEmpty ⟨0, 0, false⟩
    [blankSample ("estYawError") 5]
    ⟨6, ⟨6, 15, true⟩, [],
     [.addProcessNoise 5, .updateWithYawError ⟨0, 0.01⟩,
      .finalizeCore, .externalize]⟩
    rfl (by with_unfolding_all rfl)).1

/-- C8: a tick on an initialized state with an empty sample queue always
succeeds, advances the simulated time by exactly 1 (both in the returned
timestamp and the stored state), still invokes `addProcessNoise`, still
externalizes a state, and invokes `predict` exactly when the cadence is due
(`now_ms > next_prediction_ms`). -/
theorem c8_empty_queue_tick (ctx : CalibContext) (s : EstimatorState)
    (hinit : s.is_initialized = true) :
    run_one_1khz_iteration ctx s [] =
      Except.ok ⟨s.now_ms + 1,
        ⟨s.now_ms + 1,
         if (s.now_ms : ℚ) > s.next_prediction_ms then
           s.next_prediction_ms + PREDICT_STEP_MS
         else s.next_prediction_ms,
         true⟩,
        [], emptyTickEvents s⟩ ∧
    FilterEvent.addProcessNoise s.now_ms ∈ emptyTickEvents s ∧
    FilterEvent.externalize ∈ emptyTickEvents s ∧
    countPredicts (emptyTickEvents s)
      = (if (s.now_ms : ℚ) > s.next_prediction_ms then 1 else 0) := by
  refine ⟨tick_empty_eq ctx s hinit, ?_, ?_, ?_⟩
  · simp [emptyTickEvents]
  · simp [emptyTickEvents]
  · unfold emptyTickEvents
    exact countPredicts_empty_tick s.now_ms _

theorem c8_empty_queue_tick_witness :
    run_one_1khz_iteration ctxEmpty ⟨100, 110, true⟩ [] =
      Except.ok ⟨100 + 1,
        ⟨100 + 1,
         if ((100 : Nat) : ℚ) > (110 : ℚ) then (110 : ℚ) + PREDICT_STEP_MS
         else (110 : ℚ),
         true⟩,
        [], emptyTickEvents ⟨100, 110, true⟩⟩ ∧
    FilterEvent.addProcessNoise 100 ∈ emptyTickEvents ⟨100, 110, true⟩ ∧
    FilterEvent.externalize ∈ emptyTickEvents ⟨100, 110, true⟩ ∧
    countPredicts (emptyTickEvents ⟨100, 110, true⟩)
      = (if ((100 : Nat) : ℚ) > (110 : ℚ) then 1 else 0) :=
  c8_empty_queue_tick ctxEmpty ⟨100, 110, true⟩ rfl

/-- C6: every `updateWithSweepAngles` record a successful dispatch emits
has `rotorRotInv` equal to the exact element-by-element transpose of its
`rotorRot` (all nine entries: diagonal unchanged, off-diagonal pairs
swapped). -/
theorem c6_sweep_inverse_is_transpose (ctx : CalibContext) (sample : Sample)
    (now_ms t : Nat) (evs : List FilterEvent) (rec : SweepRecord)
    (hok : _update_with_sample ctx sample now_ms = .ok evs)
    (hmem : FilterEvent.updateWithSweepAngles rec t ∈ evs) :
    rec.rotorRotInv = rec.rotorRot.transpose := by
  unfold _update_with_sample at hok
  split_ifs at hok <;> (repeat' split at hok) <;> cases hok <;> simp at hmem
  obtain ⟨h1, h2⟩ := hmem
  subst h1
  rfl

theorem c6_sweep_inverse_is_transpose_witness :
    sweepRecEx.rotorRotInv = sweepRecEx.rotorRot.transpose :=
  c6_sweep_inverse_is_transpose ctxFull sweepSampleEx 50 50
    [.updateWithSweepAngles sweepRecEx 50] sweepRecEx
    (by with_unfolding_all rfl) (List.mem_singleton_self _)

/-- C7: every measurement record built by a successful dispatch carries the
fixed per-modality noise standard deviation (0.30 TDOA, 0.001 sweep angle,
0.01 yaw error), whatever the sample's field values. -/
theorem c7_fixed_noise_stddev (ctx : CalibContext) (sample : Sample)
    (now_ms : Nat) (evs : List FilterEvent)
    (hok : _update_with_sample ctx sample now_ms = .ok evs) :
    ∀ e ∈ evs, eventStdDevOk e := by
  unfold _update_with_sample at hok
  split_ifs at hok <;> (repeat' split at hok) <;> cases hok <;>
    simp [eventStdDevOk, TDOA_ENGINE_MEASUREMENT_NOISE_STD,
      LH_ENGINE_MEASUREMENT_NOISE_STD]

theorem c7_fixed_noise_stddev_witness :
    eventStdDevOk (FilterEvent.updateWithTdoa
      ⟨1, 2, ⟨9, 8, 7⟩, ⟨9, 8, 7⟩, 0, TDOA_ENGINE_MEASUREMENT_NOISE_STD⟩ 50) :=
  c7_fixed_noise_stddev ctxFull tdoaSampleEx 50
    [FilterEvent.updateWithTdoa
      ⟨1, 2, ⟨9, 8, 7⟩, ⟨9, 8, 7⟩, 0, TDOA_ENGINE_MEASUREMENT_NOISE_STD⟩ 50]
    (by with_unfolding_all rfl) _ (List.mem_singleton_self _)

/-- C9: dispatching a spatial sample (TDOA or sweep angle) fails with a
`LookupError` exactly when some referenced identifier is absent from the
calibration context, and produces a measurement record (successful event
list) exactly when all referenced identifiers are present. -/
theorem c9_lookup_failure_iff (ctx : CalibContext) (sample : Sample)
    (now_ms : Nat)
    (htag : sample.tag = "estTDOA" ∨ sample.tag = "estSweepAngle") :
    (_update_with_sample ctx sample now_ms = .error .lookup
      ↔ spatialIdsPresent ctx sample = false) ∧
    ((_update_with_sample ctx sample now_ms).toOption.isSome = true
      ↔ spatialIdsPresent ctx sample = true) := by
  obtain htag | htag := htag
  · unfold _update_with_sample spatialIdsPresent
    rw [htag]
    cases hA : ctx.anchor_positions sample.idA <;>
      cases hB : ctx.anchor_positions sample.idB <;>
        simp [hA, hB, Except.toOption]
  · unfold _update_with_sample spatialIdsPresent
    rw [htag]
    cases hC : ctx.basestation_calibration sample.baseStationId sample.sweepId <;>
      cases hS : sensor_position sample.sensorId <;>
        cases hP : ctx.basestation_poses sample.baseStationId <;>
          simp [hC, hS, hP, Except.toOption]

theorem c9_lookup_failure_iff_witness :
    ((_update_with_sample ctxFull tdoaSampleEx 50 = .error .lookup
        ↔ spatialIdsPresent ctxFull tdoaSampleEx = false) ∧
     ((_update_with_sample ctxFull tdoaSampleEx 50).toOption.isSome = true
        ↔ spatialIdsPresent ctxFull tdoaSampleEx = true)) :=
  c9_lookup_failure_iff ctxFull tdoaSampleEx 50 (Or.inl rfl)

/-- C10: a ready sample whose tag is none of the five recognized ones is
removed from the queue and discarded: its dispatch succeeds with no core
call and no subsampler accumulation and no error, and draining a queue
headed by such a ready sample equals draining the tail. -/
theorem c10_unknown_tag_discarded (ctx : CalibContext) (sample : Sample)
    (now_ms : Nat) (rest : List Sample)
    (h1 : sample.tag ≠ "estTDOA") (h2 : sample.tag ≠ "estYawError")
    (h3 : sample.tag ≠ "estSweepAngle") (h4 : sample.tag ≠ "estAcceleration")
    (h5 : sample.tag ≠ "estGyroscope")
    (hready : sample.timestamp ≤ now_ms) :
    _update_with_sample ctx sample now_ms = .ok [] ∧
    _update_queued_measurements ctx now_ms (sample :: rest)
      = _update_queued_measurements ctx now_ms rest := by
  have hdisp : _update_with_sample ctx sample now_ms = .ok [] := by
    unfold _update_with_sample
    rw [if_neg h1, if_neg h2, if_neg h3, if_neg h4, if_neg h5]
  refine ⟨hdisp, ?_⟩
  have hcons : _update_queued_measurements ctx now_ms (sample :: rest)
      = if sample.timestamp ≤ now_ms then
          match _update_with_sample ctx sample now_ms with
          | .error e => (⟨[], rest, some e⟩ : DrainResult)
          | .ok evs =>
            let r := _update_queued_measurements ctx now_ms rest
            ⟨evs ++ r.events, r.remaining, r.err⟩
        else ⟨[], rest, none⟩ := rfl
  rw [hcons, if_pos hready, hdisp]
  show (⟨[] ++ (_update_queued_measurements ctx now_ms rest).events,
         (_update_queued_measurements ctx now_ms rest).remaining,
         (_update_queued_measurements ctx now_ms rest).err⟩ : DrainResult)
      = _update_queued_measurements ctx now_ms rest
  simp only [List.nil_append]

theorem c10_unknown_tag_discarded_witness :
    _update_with_sample ctxEmpty (blankSample ("estFoo") 40) 50 = .ok [] ∧
    _update_queued_measurements ctxEmpty 50
        (blankSample ("estFoo") 40 :: [blankSample ("estYawError") 45])
      = _update_queued_measurements ctxEmpty 50 [blankSample ("estYawError") 45] :=
  c10_unknown_tag_discarded ctxEmpty (blankSample ("estFoo") 40) 50
    [blankSample ("estYawError") 45]
    (by decide) (by decide) (by decide) (by decide) (by decide) (by decide)
